import Mathlib

/-!
Shallow embedding of the restaurant-decision-wheel backend
(Cloudflare Pages Functions, JavaScript) in Lean 4.

Files embedded:
* functions/api/jwt-helper.js   : base64url decoding and JWT verification
* functions/api/_shared.js      : validation helpers and the in-memory rate limiter
* functions/api/auth.js         : POST /api/auth handler
* functions/api/restaurants.js  : POST/PUT /api/restaurants handlers
* functions/api/restaurants/[id].js : DELETE handler
* functions/api/profiles.js     : POST/PUT /api/profiles handlers
* functions/api/profiles/[id].js    : DELETE handler

Modelling conventions:
* JavaScript values that may be `undefined` are `Option`-typed; JS strict
  equality (`===`) and truthiness are modelled by explicit boolean functions.
* Restaurant ids may be legacy integers or strings (`RId`).
* Fields of incoming JSON whose only relevant distinction is
  absent / truthy-non-array / array-of-strings are modelled by `JField`.
* External effects are made explicit: each handler returns an `Outcome`
  recording the HTTP status, whether the stored document was fetched, and
  the document submitted to the versioned store (`none` when no write was
  attempted).  The store document is passed in as an argument (a successful
  fetch); randomness (generated UUIDs, session ids) and the clock are
  arguments.  The two `Date.now()` / `Math.floor(Date.now() / 1000)` reads
  inside one synchronous handler body are modelled as a single instant.
* The HMAC-SHA256 primitive (`crypto.subtle`) and `JSON.parse` of the token
  payload are platform primitives, taken as function parameters of the
  embedded `verify`; base64 decoding (`atob`, forgiving-base64) is
  implemented concretely.
-/

namespace RestaurantWheel

/-! ## JavaScript value helpers -/

/-- A restaurant id: legacy integer or generated string (UUID). -/
inductive RId where
  | str (s : String)
  | int (n : Int)
deriving DecidableEq

/-- JS `String(x)` applied to a possibly-absent id (`String(undefined) = "undefined"`). -/
def optRidToString : Option RId → String
  | none => "undefined"
  | some (.str s) => s
  | some (.int n) => toString n

/-- JS truthiness of a possibly-absent id (`0` and the empty string are falsy). -/
def jsTruthyRId : Option RId → Bool
  | none => false
  | some (.str s) => s ≠ ""
  | some (.int n) => n ≠ 0

/-- JS strict equality `===` on possibly-absent ids: `undefined === undefined`
is true, a number is never `===` a string. -/
def jsStrictEqOptRId : Option RId → Option RId → Bool
  | none, none => true
  | some (.str s), some (.str t) => s = t
  | some (.int m), some (.int n) => m = n
  | _, _ => false

/-- JS strict equality `===` on possibly-absent strings. -/
def jsStrictEqOptStr : Option String → Option String → Bool
  | none, none => true
  | some s, some t => s = t
  | _, _ => false

/-- JS truthiness of a possibly-absent string. -/
def jsTruthyStr : Option String → Bool
  | none => false
  | some s => s ≠ ""

/-- JS whitespace as far as `String.prototype.trim` strips it at the ends
(ASCII part; the records here are ASCII). -/
def jsIsWs (c : Char) : Bool :=
  c = ' ' || c = '\t' || c = '\n' || c = '\r' || c = '\x0c' || c = '\x0b'

/-- JS `s.trim()`. -/
def jsTrim (s : String) : String :=
  String.mk ((s.toList.dropWhile jsIsWs).reverse.dropWhile jsIsWs).reverse

/-- Helper for `jsSplitDot`: accumulate the current segment (reversed). -/
def jsSplitDotAux : List Char → List Char → List String
  | [], acc => [String.mk acc.reverse]
  | c :: rest, acc =>
      if c = '.' then String.mk acc.reverse :: jsSplitDotAux rest []
      else jsSplitDotAux rest (c :: acc)

/-- JS `s.split('.')` (single-character separator; the empty string yields
one empty segment, a trailing dot yields a trailing empty segment). -/
def jsSplitDot (s : String) : List String := jsSplitDotAux s.toList []

/-- Is `needle` a leading segment of `hay`? -/
def strStartsWith : List Char → List Char → Bool
  | [], _ => true
  | _ :: _, [] => false
  | a :: as, b :: bs => a = b && strStartsWith as bs

/-- Does `needle` occur anywhere in `hay`? -/
def strContainsAux (needle : List Char) : List Char → Bool
  | [] => strStartsWith needle []
  | c :: rest => strStartsWith needle (c :: rest) || strContainsAux needle rest

/-- An incoming-JSON field about which the code only asks: is it truthy, and
is it an array (of profile-id / label strings)? -/
inductive JField where
  | absent
  | nonArray
  | array (xs : List String)
deriving DecidableEq

/-! ## Data model (the persisted JSON document) -/

/-- A profile record as stored / submitted (fields may be absent in JS). -/
structure ProfileObj where
  id : Option String
  name : Option String
deriving DecidableEq

/-- A restaurant record as stored / submitted.  `notes` stands for the opaque
free-text fields (orderMethod, menuLink, address, phone, notes) that the
handlers never inspect. -/
structure RestaurantObj where
  id : Option RId
  name : Option String
  foodTypes : JField
  serviceTypes : JField
  profiles : JField
  dietaryRestrictions : JField
  notes : String
deriving DecidableEq

/-- The single persisted document (`restaurants.json`). -/
structure Document where
  profiles : Option (List ProfileObj)
  restaurants : Option (List RestaurantObj)
deriving DecidableEq

/-- Result of one handler invocation: HTTP status, whether the stored
document was fetched, and the document handed to the versioned write
(`none` when no write was attempted). -/
structure Outcome where
  status : Nat
  fetched : Bool
  write : Option Document
deriving DecidableEq

/-! ## Validation layer (functions/api/_shared.js) -/

/-- Result of `validateServiceTypes`. -/
structure ServiceTypesValidation where
  valid : Bool
  invalidTypes : List String
deriving DecidableEq

/-- The four enumerated service types (`_shared.js`). -/
def validServiceTypes : List String := ["takeout", "delivery", "dine-in", "at-home"]

/-- Embeds `validateServiceTypes` from `_shared.js`. -/
def validateServiceTypes (serviceTypes : List String) : ServiceTypesValidation :=
  let invalidTypes := serviceTypes.filter (fun st => ¬ validServiceTypes.contains st)
  ⟨invalidTypes.length = 0, invalidTypes⟩

/-- Embeds `validateProfileId` from `_shared.js`: full-string match of
the regex `[a-z0-9-]+` (anchored). -/
def validateProfileId (profileId : String) : Bool :=
  profileId.length > 0 &&
    profileId.toList.all fun c =>
      ('a' ≤ c && c ≤ 'z') || ('0' ≤ c && c ≤ '9') || c = '-'

/-- Result of `validateRestaurantData`. -/
structure RestaurantValidation where
  valid : Bool
  errors : List String
deriving DecidableEq

/-- Embeds `validateRestaurantData` from `_shared.js`.  The JS name test
rejects an absent (or falsy, i.e. empty) name, and a name that trims to
empty. -/
def validateRestaurantData (restaurant : RestaurantObj) : RestaurantValidation :=
  let errors : List String := []
  let errors :=
    if (match restaurant.name with
        | none => true
        | some s => s = "" || jsTrim s = "") then
      errors ++ ["Restaurant name is required"]
    else errors
  let errors :=
    if (match restaurant.foodTypes with
        | .array xs => decide (xs.length = 0)
        | _ => true) then
      errors ++ ["At least one food type is required"]
    else errors
  let errors :=
    if (match restaurant.serviceTypes with
        | .array xs => decide (xs.length = 0)
        | _ => true) then
      errors ++ ["At least one service type is required"]
    else errors
  let errors :=
    match restaurant.serviceTypes with
    | .array xs =>
        let serviceValidation := validateServiceTypes xs
        if ¬ serviceValidation.valid then
          errors ++ ["Invalid service types: " ++ String.intercalate ", " serviceValidation.invalidTypes]
        else errors
    | _ => errors
  let errors :=
    match restaurant.profiles with
    | .nonArray => errors ++ ["Profiles must be an array"]
    | _ => errors
  let errors :=
    match restaurant.dietaryRestrictions with
    | .nonArray => errors ++ ["Dietary restrictions must be an array"]
    | _ => errors
  ⟨errors.length = 0, errors⟩

/-! ## Rate limiter (functions/api/_shared.js, `checkRateLimit`) -/

/-- One entry of the in-memory `rateLimitStore` map. -/
structure RLEntry where
  count : Nat
  resetAt : Int
deriving DecidableEq

/-- What one `checkRateLimit` call yields for its key: the entry now stored
for the key, and the returned `allowed` / `remaining` fields (the returned
`resetAt` is `newEntry.resetAt`). -/
structure RLOutcome where
  newEntry : RLEntry
  allowed : Bool
  remaining : Int
deriving DecidableEq

/-- Embeds `checkRateLimit` from `_shared.js`, viewed at a single client
key: `entry?` is the map lookup for the key (the opportunistic purge of
expired entries at > 10000 keys only deletes entries with `now > resetAt`,
which the subsequent logic treats exactly like a missing entry, so the
single-key view is faithful). -/
def checkRateLimit (entry? : Option RLEntry) (now : Int) (maxRequests : Nat)
    (windowMs : Int) : RLOutcome :=
  match entry? with
  | none =>
      let entry : RLEntry := ⟨1, now + windowMs⟩
      ⟨entry, true, (maxRequests : Int) - 1⟩
  | some entry =>
      if now > entry.resetAt then
        let fresh : RLEntry := ⟨1, now + windowMs⟩
        ⟨fresh, true, (maxRequests : Int) - 1⟩
      else
        let entry' : RLEntry := ⟨entry.count + 1, entry.resetAt⟩
        if entry'.count > maxRequests then
          ⟨entry', false, 0⟩
        else
          ⟨entry', true, (maxRequests : Int) - (entry'.count : Int)⟩

/-- Runs `n` consecutive `checkRateLimit` calls for one key at a fixed
instant, returning the sequence of `allowed` results. -/
def simulateCalls : Nat → Option RLEntry → Int → Nat → Int → List Bool
  | 0, _, _, _, _ => []
  | n + 1, st, now, maxRequests, windowMs =>
      let r := checkRateLimit st now maxRequests windowMs
      r.allowed :: simulateCalls n (some r.newEntry) now maxRequests windowMs

/-! ## JWT helper (functions/api/jwt-helper.js) -/

/-- ASCII whitespace stripped by the platform forgiving-base64 decoder. -/
def isB64Ws (c : Char) : Bool :=
  c = ' ' || c = '\t' || c = '\n' || c = '\x0c' || c = '\r'

/-- Value of one character of the standard base64 alphabet. -/
def b64Val (c : Char) : Option Nat :=
  if 'A' ≤ c && c ≤ 'Z' then some (c.toNat - 'A'.toNat)
  else if 'a' ≤ c && c ≤ 'z' then some (c.toNat - 'a'.toNat + 26)
  else if '0' ≤ c && c ≤ '9' then some (c.toNat - '0'.toNat + 52)
  else if c = '+' then some 62
  else if c = '/' then some 63
  else none

/-- Strip up to two trailing padding characters when the length is a
multiple of 4 (forgiving-base64 step). -/
def b64StripPad (l : List Char) : List Char :=
  if l.length % 4 = 0 then
    match l.reverse with
    | '=' :: '=' :: rest => rest.reverse
    | '=' :: rest => rest.reverse
    | _ => l
  else l

/-- Decode a list of 6-bit values to bytes (groups of 4 give 3 bytes; a
leftover pair gives 1 byte, a leftover triple gives 2 bytes). -/
def b64Bytes : List Nat → List Nat
  | a :: b :: c :: d :: rest =>
      (a * 4 + b / 16) :: ((b % 16) * 16 + c / 4) :: ((c % 4) * 64 + d) :: b64Bytes rest
  | [a, b] => [a * 4 + b / 16]
  | [a, b, c] => [a * 4 + b / 16, (b % 16) * 16 + c / 4]
  | _ => []

/-- The platform `atob` (forgiving-base64 decode to a binary string);
`none` models the thrown `InvalidCharacterError`. -/
def atob (s : String) : Option String :=
  let l := s.toList.filter (fun c => ¬ isB64Ws c)
  let l := b64StripPad l
  if l.length % 4 = 1 then none
  else if l.any (fun c => (b64Val c).isNone) then none
  else some (String.mk ((b64Bytes (l.map (fun c => (b64Val c).getD 0))).map Char.ofNat))

/-- Embeds `base64UrlDecode` from `jwt-helper.js`: translate the URL-safe
alphabet back, pad with `'='` to a multiple of 4, then `atob`. -/
def base64UrlDecode (s : String) : Option String :=
  let t := s.toList.map fun c => if c = '-' then '+' else if c = '_' then '/' else c
  let t := t ++ List.replicate ((4 - t.length % 4) % 4) '='
  atob (String.mk t)

/-- The code points of a binary string, as the signature bytes are fed to
the HMAC check (char codes of the decoded signature segment). -/
def strBytes (s : String) : List Nat := s.toList.map Char.toNat

/-- The decoded token payload, as far as `verify` inspects it: its `exp`
field, absent or an (integer) number. -/
structure JwtPayload where
  exp : Option Int
deriving DecidableEq

/-- Embeds `verify` from `jwt-helper.js`.  `mac secret message sigBytes`
models the `crypto.subtle` HMAC-SHA256 signature check; `parse` models
`JSON.parse` of the decoded payload (`none` = throw, and a payload whose
`exp` property is absent or non-numeric is `some ⟨none⟩`); `nowSec` is
`Math.floor(Date.now() / 1000)`.  Every throwing step is caught by the
surrounding `try` and yields `false`. -/
def verify (mac : String → String → List Nat → Bool)
    (parse : String → Option JwtPayload) (nowSec : Int)
    (token secret : String) : Bool :=
  match jsSplitDot token with
  | [encodedHeader, encodedPayload, encodedSignature] =>
      let message := encodedHeader ++ "." ++ encodedPayload
      match base64UrlDecode encodedSignature with
      | none => false
      | some sigStr =>
          if ¬ mac secret message (strBytes sigStr) then false
          else
            match base64UrlDecode encodedPayload with
            | none => false
            | some payloadStr =>
                match parse payloadStr with
                | none => false
                | some payload =>
                    match payload.exp with
                    | some e => if e ≠ 0 ∧ e < nowSec then false else true
                    | none => true
  | _ => false

/-- Verification as the specification sentence describes it (for comparison
with the embedded `verify` of the code): identical three-segment / signature / parse
checks, but the expiry rejection fires whenever an `exp` field EXISTS and
is strictly less than the current epoch seconds — with no JS truthiness
escape for `exp = 0`. -/
def verifyClaimSpec (mac : String → String → List Nat → Bool)
    (parse : String → Option JwtPayload) (nowSec : Int)
    (token secret : String) : Bool :=
  match jsSplitDot token with
  | [encodedHeader, encodedPayload, encodedSignature] =>
      let message := encodedHeader ++ "." ++ encodedPayload
      match base64UrlDecode encodedSignature with
      | none => false
      | some sigStr =>
          if ¬ mac secret message (strBytes sigStr) then false
          else
            match base64UrlDecode encodedPayload with
            | none => false
            | some payloadStr =>
                match parse payloadStr with
                | none => false
                | some payload =>
                    match payload.exp with
                    | some e => if e < nowSec then false else true
                    | none => true
  | _ => false

/-! ## Authentication endpoint (functions/api/auth.js) -/

/-- The claims object signed into the issued token. -/
structure AuthPayload where
  sessionId : String
  iat : Int
  exp : Int
deriving DecidableEq

/-- Result of one `POST /api/auth` invocation: HTTP status, the
`authenticated` body field, the payload signed into the returned token
(`none` when no token was issued), the `Retry-After` header value in
seconds (`none` when the header is absent), and the rate-limit entry now
stored for the client key.  The endpoint never touches the document store. -/
structure AuthOutcome where
  status : Nat
  authenticated : Bool
  payload : Option AuthPayload
  retryAfter : Option Int
  rlEntry : RLEntry
deriving DecidableEq

/-- Integer ceiling division by 1000, as `Math.ceil(ms / 1000)` computes on
the exact millisecond difference. -/
def ceilDivThousand (a : Int) : Int := Int.fdiv (a + 999) 1000

/-- Embeds `onRequestPost` from `auth.js`.  `rl` is the rate-limit entry
stored for the client key; `body` is the parsed request body (`none` =
`request.json()` threw, `some pw?` = parsed, with `pw?` the `password`
property); `sessionId` models `crypto.randomUUID()`; the clock reads are a
single instant `nowMs`. -/
def onRequestPostAuth (rl : Option RLEntry) (nowMs : Int) (sessionId : String)
    (body : Option (Option String)) (adminPassword : Option String)
    (jwtSecret : Option String) : AuthOutcome :=
  let rateCheck := checkRateLimit rl nowMs 5 60000
  if ¬ rateCheck.allowed then
    ⟨429, false, none, some (ceilDivThousand (rateCheck.newEntry.resetAt - nowMs)),
      rateCheck.newEntry⟩
  else
    match body with
    | none => ⟨400, false, none, none, rateCheck.newEntry⟩
    | some password =>
        match jwtSecret with
        | none => ⟨500, false, none, none, rateCheck.newEntry⟩
        | some _ =>
            if jsStrictEqOptStr password adminPassword then
              let iat := Int.fdiv nowMs 1000
              ⟨200, true, some ⟨sessionId, iat, iat + 3600⟩, none, rateCheck.newEntry⟩
            else
              ⟨401, false, none, none, rateCheck.newEntry⟩

/-! ## Restaurant endpoints (functions/api/restaurants.js and restaurants/[id].js) -/

/-- Embeds `onRequestPost` from `restaurants.js`.  `genId` models
`generateUUID()`; `p` is the parsed request body; `doc` is the fetched
document. -/
def restaurantsPost (auth : Bool) (p : RestaurantObj) (genId : RId)
    (doc : Document) : Outcome :=
  if ¬ auth then ⟨401, false, none⟩
  else
    let validation := validateRestaurantData p
    if ¬ validation.valid then ⟨400, false, none⟩
    else
      let rs := doc.restaurants.getD []
      let p' := if jsTruthyRId p.id then p else { p with id := some genId }
      ⟨200, true, some { doc with restaurants := some (rs ++ [p']) }⟩

/-- Embeds `onRequestPut` from `restaurants.js`.  The record lookup is
`data.restaurants.findIndex((r) => r.id === updatedRestaurant.id)` —
JS strict equality, NOT the `String(...)`-coerced comparison the delete
endpoint uses.  A document without a `restaurants` array makes `findIndex`
throw, caught as a 500. -/
def restaurantsPut (auth : Bool) (p : RestaurantObj) (doc : Document) : Outcome :=
  if ¬ auth then ⟨401, false, none⟩
  else
    let validation := validateRestaurantData p
    if ¬ validation.valid then ⟨400, false, none⟩
    else if ¬ jsTruthyRId p.id then ⟨400, false, none⟩
    else
      match doc.restaurants with
      | none => ⟨500, true, none⟩
      | some rs =>
          match rs.findIdx? (fun r => jsStrictEqOptRId r.id p.id) with
          | none => ⟨404, true, none⟩
          | some index =>
              ⟨200, true, some { doc with restaurants := some (rs.set index p) }⟩

/-- Embeds `onRequestDelete` from `restaurants/[id].js`: the lookup is
`String(r.id) === String(restaurantId)` (string-coerced, `restaurantId`
is the path parameter, a string). -/
def restaurantsDelete (auth : Bool) (pathId : String) (doc : Document) : Outcome :=
  if ¬ auth then ⟨401, false, none⟩
  else
    match doc.restaurants with
    | none => ⟨500, true, none⟩
    | some rs =>
        match rs.findIdx? (fun r => optRidToString r.id = pathId) with
        | none => ⟨404, true, none⟩
        | some index =>
            ⟨200, true, some { doc with restaurants := some (rs.eraseIdx index) }⟩

/-! ## Profile endpoints (functions/api/profiles.js and profiles/[id].js) -/

/-- The reserved default profile inserted when the collection is missing. -/
def allProfile : ProfileObj := ⟨some "all", some "All Restaurants"⟩

/-- The reserved profile ids (`profiles.js`). -/
def reservedIds : List String := ["all"]

/-- Embeds `onRequestPost` from `profiles.js`. -/
def profilesPost (auth : Bool) (p : ProfileObj) (doc : Document) : Outcome :=
  if ¬ auth then ⟨401, false, none⟩
  else if ¬ jsTruthyStr p.id || ¬ jsTruthyStr p.name then ⟨400, false, none⟩
  else if ¬ validateProfileId (p.id.getD "") then ⟨400, false, none⟩
  else if reservedIds.contains (p.id.getD "") then ⟨400, false, none⟩
  else
    let ps := match doc.profiles with
      | none => [allProfile]
      | some ps => ps
    if (ps.find? (fun q => jsStrictEqOptStr q.id p.id)).isSome then ⟨400, true, none⟩
    else ⟨200, true, some { doc with profiles := some (ps ++ [p]) }⟩

/-- Replace the `name` of the record at index `i` (the in-place
`data.profiles[index].name = updatedProfile.name`). -/
def setProfileName (ps : List ProfileObj) (i : Nat) (nm : Option String) :
    List ProfileObj :=
  match ps[i]? with
  | some q => ps.set i { q with name := nm }
  | none => ps

/-- Embeds `onRequestPut` from `profiles.js`.  A document without a
`profiles` array makes `findIndex` throw, caught as a 500. -/
def profilesPut (auth : Bool) (p : ProfileObj) (doc : Document) : Outcome :=
  if ¬ auth then ⟨401, false, none⟩
  else if ¬ jsTruthyStr p.id || ¬ jsTruthyStr p.name then ⟨400, false, none⟩
  else if p.id = some "all" then ⟨400, false, none⟩
  else
    match doc.profiles with
    | none => ⟨500, true, none⟩
    | some ps =>
        match ps.findIdx? (fun q => jsStrictEqOptStr q.id p.id) with
        | none => ⟨404, true, none⟩
        | some index =>
            ⟨200, true, some { doc with profiles := some (setProfileName ps index p.name) }⟩

/-- The cascade step of profile deletion: drop the deleted id from a
restaurant's `profiles` when (and only when) that field is an array. -/
def cascadeProfile (profileId : String) (r : RestaurantObj) : RestaurantObj :=
  match r.profiles with
  | .array xs => { r with profiles := .array (xs.filter (fun x => x ≠ profileId)) }
  | _ => r

/-- Embeds `onRequestDelete` from `profiles/[id].js`: reject `"all"` before
the fetch; 404 when the collection is missing or the id is not found;
otherwise splice out the profile, cascade over every restaurant, and
submit the one mutated document to the store. -/
def profilesDelete (auth : Bool) (pathId : String) (doc : Document) : Outcome :=
  if ¬ auth then ⟨401, false, none⟩
  else if pathId = "all" then ⟨400, false, none⟩
  else
    match doc.profiles with
    | none => ⟨404, true, none⟩
    | some ps =>
        match ps.findIdx? (fun q => jsStrictEqOptStr q.id (some pathId)) with
        | none => ⟨404, true, none⟩
        | some index =>
            let ps' := ps.eraseIdx index
            let rs' := doc.restaurants.map (fun rs => rs.map (cascadeProfile pathId))
            ⟨200, true, some ⟨some ps', rs'⟩⟩

/-- Does `needle` occur as a substring of `hay`? (used to state the specification
phrase: an error mentioning a given text). -/
def mentions (needle hay : String) : Bool :=
  strContainsAux needle.toList hay.toList

/-! ## Claims -/

/-- Claim C7: `validateRestaurantData` accumulates all applicable errors
instead of failing fast, and `valid` is true iff zero errors accumulated;
on the input with empty name, empty foodTypes and empty serviceTypes it
returns `valid = false` with at least three errors, including
"Restaurant name is required", an error mentioning "food type", and an
error mentioning "service type". -/
theorem c7_validate_restaurant_accumulates :
    (∀ r : RestaurantObj,
      (validateRestaurantData r).valid = true ↔ (validateRestaurantData r).errors = []) ∧
    ((validateRestaurantData ⟨none, some "", .array [], .array [], .absent, .absent, ""⟩).valid
        = false ∧
      3 ≤ (validateRestaurantData
        ⟨none, some "", .array [], .array [], .absent, .absent, ""⟩).errors.length ∧
      "Restaurant name is required" ∈ (validateRestaurantData
        ⟨none, some "", .array [], .array [], .absent, .absent, ""⟩).errors ∧
      ((validateRestaurantData
        ⟨none, some "", .array [], .array [], .absent, .absent, ""⟩).errors.any
          (fun e => mentions "food type" e)) = true ∧
      ((validateRestaurantData
        ⟨none, some "", .array [], .array [], .absent, .absent, ""⟩).errors.any
          (fun e => mentions "service type" e)) = true) := by
  constructor
  · intro r
    rw [show (validateRestaurantData r).valid
        = decide ((validateRestaurantData r).errors.length = 0) from rfl]
    simp [List.length_eq_zero]
  · exact ⟨by decide, by decide, by decide, by decide, by decide⟩

/-- Witness for C7: the validity-iff-no-errors equivalence evaluated at the
concrete test record. -/
theorem c7_witness :
    ((validateRestaurantData ⟨none, some "", .array [], .array [], .absent, .absent, ""⟩).valid
        = true ↔
      (validateRestaurantData
        ⟨none, some "", .array [], .array [], .absent, .absent, ""⟩).errors = []) :=
  c7_validate_restaurant_accumulates.1 ⟨none, some "", .array [], .array [], .absent, .absent, ""⟩

/-- Claim C4: the rate limiter implements sliding-window-by-reset semantics
(missing entry or `now > resetAt` resets to count 1 with
`resetAt = now + windowMs` and allows; otherwise the count is incremented
and the request is allowed iff the incremented count is at most
`maxRequests`); consequently from a fresh key with `maxRequests = 5` the
first five calls within the window are allowed and the sixth is denied,
and a denied check makes the auth endpoint answer 429 with a Retry-After
header. -/
theorem c4_rate_limiter_semantics :
    (∀ (now : Int) (maxRequests : Nat) (windowMs : Int),
      checkRateLimit none now maxRequests windowMs
        = ⟨⟨1, now + windowMs⟩, true, (maxRequests : Int) - 1⟩) ∧
    (∀ (e : RLEntry) (now : Int) (maxRequests : Nat) (windowMs : Int),
      now > e.resetAt →
      checkRateLimit (some e) now maxRequests windowMs
        = ⟨⟨1, now + windowMs⟩, true, (maxRequests : Int) - 1⟩) ∧
    (∀ (e : RLEntry) (now : Int) (maxRequests : Nat) (windowMs : Int),
      ¬ now > e.resetAt →
      (checkRateLimit (some e) now maxRequests windowMs).newEntry
          = ⟨e.count + 1, e.resetAt⟩ ∧
      ((checkRateLimit (some e) now maxRequests windowMs).allowed = true ↔
        e.count + 1 ≤ maxRequests)) ∧
    (simulateCalls 6 none 0 5 60000 = [true, true, true, true, true, false]) ∧
    (∀ rl nowMs sessionId body adminPassword jwtSecret,
      (checkRateLimit rl nowMs 5 60000).allowed = false →
      (onRequestPostAuth rl nowMs sessionId body adminPassword jwtSecret).status = 429 ∧
      (onRequestPostAuth rl nowMs sessionId body adminPassword
        jwtSecret).retryAfter.isSome = true) := by
  refine ⟨fun now maxRequests windowMs => rfl, ?_, ?_, by decide, ?_⟩
  · intro e now maxRequests windowMs h
    simp [checkRateLimit, h]
  · intro e now maxRequests windowMs h
    simp only [checkRateLimit, if_neg h]
    constructor
    · split <;> rfl
    · split <;> rename_i hc
      · simp; omega
      · simp; omega
  · intro rl nowMs sessionId body adminPassword jwtSecret h
    simp [onRequestPostAuth, h]

/-- Witness for C4: the in-window-increment clause and the 429 clause at
concrete inputs. -/
theorem c4_witness :
    ((checkRateLimit (some ⟨5, 60000⟩) 10 5 60000).allowed = true ↔ 5 + 1 ≤ 5) ∧
    (onRequestPostAuth (some ⟨5, 60000⟩) 10 "sid" (some (some "pw"))
      (some "pw") (some "k")).status = 429 :=
  ⟨(c4_rate_limiter_semantics.2.2.1 ⟨5, 60000⟩ 10 5 60000 (by decide)).2,
    (c4_rate_limiter_semantics.2.2.2.2 (some ⟨5, 60000⟩) 10 "sid" (some (some "pw"))
      (some "pw") (some "k") (by decide)).1⟩

/-- Claim C10: a denied (over-limit) call never modifies resetAt — in-window
calls preserve the stored resetAt while incrementing the count, an
over-limit in-window call yields exactly the incremented entry with
`allowed = false`, and the first call strictly after the stored resetAt is
always allowed and resets the count to 1. -/
theorem c10_denied_calls_preserve_reset :
    (∀ (e : RLEntry) (now : Int) (maxRequests : Nat) (windowMs : Int),
      now ≤ e.resetAt →
      (checkRateLimit (some e) now maxRequests windowMs).newEntry.resetAt = e.resetAt) ∧
    (∀ (e : RLEntry) (now : Int) (maxRequests : Nat) (windowMs : Int),
      now ≤ e.resetAt → maxRequests ≤ e.count →
      checkRateLimit (some e) now maxRequests windowMs
        = ⟨⟨e.count + 1, e.resetAt⟩, false, 0⟩) ∧
    (∀ (e : RLEntry) (now : Int) (maxRequests : Nat) (windowMs : Int),
      e.resetAt < now →
      checkRateLimit (some e) now maxRequests windowMs
        = ⟨⟨1, now + windowMs⟩, true, (maxRequests : Int) - 1⟩) := by
  refine ⟨?_, ?_, ?_⟩
  · intro e now maxRequests windowMs h
    simp only [checkRateLimit, if_neg (by omega : ¬ now > e.resetAt)]
    split <;> rfl
  · intro e now maxRequests windowMs h hc
    simp only [checkRateLimit, if_neg (by omega : ¬ now > e.resetAt)]
    rw [if_pos (by omega : e.count + 1 > maxRequests)]
  · intro e now maxRequests windowMs h
    simp [checkRateLimit, h]

/-- Witness for C10: a sixth over-limit call at max 5 leaves resetAt at its
stored value and is denied; the first call after expiry resets to count 1. -/
theorem c10_witness :
    checkRateLimit (some ⟨5, 60000⟩) 10 5 60000 = ⟨⟨6, 60000⟩, false, 0⟩ ∧
    checkRateLimit (some ⟨6, 60000⟩) 60001 5 60000 = ⟨⟨1, 120001⟩, true, 4⟩ :=
  ⟨c10_denied_calls_preserve_reset.2.1 ⟨5, 60000⟩ 10 5 60000 (by decide) (by decide),
    c10_denied_calls_preserve_reset.2.2 ⟨6, 60000⟩ 60001 5 60000 (by decide)⟩

/-- Claim C9: a token whose three-segment structure parses and whose HMAC
signature verifies is accepted regardless of the current time whenever the
decoded payload has no `exp` field or a falsy one (`exp = 0`) — such a
signed token never expires. -/
theorem c9_falsy_exp_never_expires (mac : String → String → List Nat → Bool)
    (parse : String → Option JwtPayload) (token secret : String)
    (eh ep es sg pc : String) (pl : JwtPayload)
    (hsplit : jsSplitDot token = [eh, ep, es])
    (hsig : base64UrlDecode es = some sg)
    (hmac : mac secret (eh ++ "." ++ ep) (strBytes sg) = true)
    (hpay : base64UrlDecode ep = some pc)
    (hparse : parse pc = some pl)
    (hexp : pl.exp = none ∨ pl.exp = some 0) :
    ∀ nowSec : Int, verify mac parse nowSec token secret = true := by
  intro nowSec
  unfold verify
  rw [hsplit]
  simp only [hsig, hmac, hpay, hparse]
  rcases hexp with h0 | h0 <;> simp [h0]

/-- Witness for C9: a concrete always-accepting HMAC oracle, a payload that
parses to a zero `exp`, and a structurally well-formed token are accepted at
a late clock. -/
theorem c9_witness :
    verify (fun _ _ _ => true) (fun _ => some ⟨some 0⟩) 999999999
      "AAAA.AAAA.AAAA" "secret" = true :=
  c9_falsy_exp_never_expires (fun _ _ _ => true) (fun _ => some ⟨some 0⟩)
    "AAAA.AAAA.AAAA" "secret" "AAAA" "AAAA" "AAAA" "\x00\x00\x00" "\x00\x00\x00"
    ⟨some 0⟩ (by decide) (by decide) rfl (by decide) rfl (Or.inr rfl) 999999999

/-- Claim C5: every successful authentication (the handler answers
`authenticated = true`, which requires the password to equal the configured
credential and the signing secret to be present) issues a token whose
payload satisfies `exp = iat + 3600` and `exp > iat`. -/
theorem c5_token_expiry_one_hour (rl : Option RLEntry) (nowMs : Int)
    (sessionId : String) (body : Option (Option String))
    (adminPassword jwtSecret : Option String)
    (hauth : (onRequestPostAuth rl nowMs sessionId body adminPassword
      jwtSecret).authenticated = true) :
    ∃ pl : AuthPayload,
      (onRequestPostAuth rl nowMs sessionId body adminPassword jwtSecret).payload
          = some pl ∧
      pl.exp = pl.iat + 3600 ∧ pl.iat < pl.exp := by
  unfold onRequestPostAuth at hauth ⊢
  by_cases hra : (checkRateLimit rl nowMs 5 60000).allowed = true
  · simp only [hra, not_true_eq_false, if_false] at hauth ⊢
    cases body with
    | none => simp at hauth
    | some password =>
        cases jwtSecret with
        | none => simp at hauth
        | some k =>
            by_cases hpw : jsStrictEqOptStr password adminPassword = true
            · simp only [hpw, if_true] at hauth ⊢
              exact ⟨_, rfl, rfl, by simp⟩
            · simp [hpw] at hauth
  · simp [hra] at hauth

/-- Witness for C5: a concrete successful authentication. -/
theorem c5_witness :
    ∃ pl : AuthPayload,
      (onRequestPostAuth none 1700000000000 "sid" (some (some "pw"))
        (some "pw") (some "k")).payload = some pl ∧
      pl.exp = pl.iat + 3600 ∧ pl.iat < pl.exp :=
  c5_token_expiry_one_hour none 1700000000000 "sid" (some (some "pw"))
    (some "pw") (some "k") (by decide)

/-- Claim C6: for every authenticated request, deleting or editing the
profile with id "all" fails with status 400 before the stored document is
fetched (so the store is untouched), and creating a profile with the
reserved id "all" also fails with 400 before the fetch. -/
theorem c6_reserved_all_rejected :
    (∀ doc : Document, profilesDelete true "all" doc = ⟨400, false, none⟩) ∧
    (∀ (p : ProfileObj) (doc : Document), p.id = some "all" →
      profilesPut true p doc = ⟨400, false, none⟩) ∧
    (∀ (p : ProfileObj) (doc : Document), p.id = some "all" →
      profilesPost true p doc = ⟨400, false, none⟩) := by
  refine ⟨fun doc => rfl, ?_, ?_⟩
  · intro p doc hid
    unfold profilesPut
    rw [hid]
    by_cases hn : jsTruthyStr p.name = true
    · simp [hn, jsTruthyStr]
    · simp [hn]
  · intro p doc hid
    unfold profilesPost
    rw [hid]
    by_cases hn : jsTruthyStr p.name = true
    · simp [hn, jsTruthyStr, validateProfileId, reservedIds]
    · simp [hn]

/-- Witness for C6: editing and creating the reserved profile with a
concrete payload and document. -/
theorem c6_witness :
    profilesPut true ⟨some "all", some "Everything"⟩ ⟨some [], some []⟩
        = ⟨400, false, none⟩ ∧
    profilesPost true ⟨some "all", some "Everything"⟩ ⟨some [], some []⟩
        = ⟨400, false, none⟩ :=
  ⟨c6_reserved_all_rejected.2.1 ⟨some "all", some "Everything"⟩ ⟨some [], some []⟩ rfl,
    c6_reserved_all_rejected.2.2 ⟨some "all", some "Everything"⟩ ⟨some [], some []⟩ rfl⟩

/-- Claim C8: requests to mutation endpoints that fail validation (invalid
restaurant payload on POST/PUT restaurants; missing fields, bad id format
or reserved id on profile mutations), and auth requests that fail the rate
limit, are answered locally: no fetch from and no write to the external
store, so the stored document and its version tag are unchanged. -/
theorem c8_validation_failures_local :
    (∀ (p : RestaurantObj) (genId : RId) (doc : Document),
      (validateRestaurantData p).valid = false →
      restaurantsPost true p genId doc = ⟨400, false, none⟩) ∧
    (∀ (p : RestaurantObj) (doc : Document),
      (validateRestaurantData p).valid = false →
      restaurantsPut true p doc = ⟨400, false, none⟩) ∧
    (∀ (p : RestaurantObj) (doc : Document),
      (validateRestaurantData p).valid = true → jsTruthyRId p.id = false →
      restaurantsPut true p doc = ⟨400, false, none⟩) ∧
    (∀ (p : ProfileObj) (doc : Document),
      (jsTruthyStr p.id = false ∨ jsTruthyStr p.name = false ∨
        validateProfileId (p.id.getD "") = false ∨
        reservedIds.contains (p.id.getD "") = true) →
      profilesPost true p doc = ⟨400, false, none⟩) ∧
    (∀ (p : ProfileObj) (doc : Document),
      (jsTruthyStr p.id = false ∨ jsTruthyStr p.name = false ∨ p.id = some "all") →
      profilesPut true p doc = ⟨400, false, none⟩) ∧
    (∀ rl nowMs sessionId body adminPassword jwtSecret,
      (checkRateLimit rl nowMs 5 60000).allowed = false →
      (onRequestPostAuth rl nowMs sessionId body adminPassword jwtSecret).status = 429 ∧
      (onRequestPostAuth rl nowMs sessionId body adminPassword jwtSecret).payload
          = none) := by
  refine ⟨?_, ?_, ?_, ?_, ?_, ?_⟩
  · intro p genId doc hv
    simp [restaurantsPost, hv]
  · intro p doc hv
    simp [restaurantsPut, hv]
  · intro p doc hv hid
    simp [restaurantsPut, hv, hid]
  · intro p doc hv
    unfold profilesPost
    by_cases h1 : jsTruthyStr p.id = true
    · by_cases h2 : jsTruthyStr p.name = true
      · by_cases h3 : validateProfileId (p.id.getD "") = true
        · rcases hv with h | h | h | h
          · rw [h1] at h; exact absurd h (by simp)
          · rw [h2] at h; exact absurd h (by simp)
          · rw [h3] at h; exact absurd h (by simp)
          · have hm : p.id.getD "" ∈ reservedIds := by simpa using h
            simp [h1, h2, h3, hm]
        · simp [h1, h2, h3]
      · simp [h2]
    · simp [h1]
  · intro p doc hv
    unfold profilesPut
    by_cases h1 : jsTruthyStr p.id = true
    · by_cases h2 : jsTruthyStr p.name = true
      · rcases hv with h | h | h
        · rw [h1] at h; exact absurd h (by simp)
        · rw [h2] at h; exact absurd h (by simp)
        · simp [h1, h2, h]
      · simp [h2]
    · simp [h1]
  · intro rl nowMs sessionId body adminPassword jwtSecret h
    constructor <;> simp [onRequestPostAuth, h]

/-- Witness for C8: an invalid restaurant payload on POST, a reserved
profile id on profile POST, and a rate-limited auth request, all at
concrete inputs, are answered without touching the store. -/
theorem c8_witness :
    restaurantsPost true ⟨none, none, .absent, .absent, .absent, .absent, ""⟩
        (.str "u1") ⟨none, some []⟩ = ⟨400, false, none⟩ ∧
    profilesPost true ⟨some "all", some "X"⟩ ⟨some [], some []⟩ = ⟨400, false, none⟩ ∧
    (onRequestPostAuth (some ⟨7, 60000⟩) 10 "sid" (some (some "pw"))
      (some "pw") (some "k")).status = 429 :=
  ⟨c8_validation_failures_local.1 ⟨none, none, .absent, .absent, .absent, .absent, ""⟩
      (.str "u1") ⟨none, some []⟩ (by decide),
    c8_validation_failures_local.2.2.2.1 ⟨some "all", some "X"⟩ ⟨some [], some []⟩
      (Or.inr (Or.inr (Or.inr (by decide)))),
    (c8_validation_failures_local.2.2.2.2.2 (some ⟨7, 60000⟩) 10 "sid" (some (some "pw"))
      (some "pw") (some "k") (by decide)).1⟩

/-- Claim C2: deleting a profile id `p` distinct from "all" that is present
in the profiles collection yields one new document in which the matched
profile is removed (other profiles keeping their order), every occurrence
of `p` is removed from every restaurant `profiles` array, and all other
fields of every restaurant and profile are unchanged; both effects are in
the single document handed to the one versioned write. -/
theorem c2_delete_profile_cascades (pathId : String) (doc : Document)
    (ps : List ProfileObj) (index : Nat)
    (hall : pathId ≠ "all")
    (hps : doc.profiles = some ps)
    (hfind : ps.findIdx? (fun q => jsStrictEqOptStr q.id (some pathId)) = some index) :
    profilesDelete true pathId doc =
      ⟨200, true, some ⟨some (ps.eraseIdx index),
        doc.restaurants.map (fun rs => rs.map (cascadeProfile pathId))⟩⟩ ∧
    (ps.eraseIdx index = ps.take index ++ ps.drop (index + 1)) ∧
    (∀ r : RestaurantObj,
      (cascadeProfile pathId r).id = r.id ∧
      (cascadeProfile pathId r).name = r.name ∧
      (cascadeProfile pathId r).foodTypes = r.foodTypes ∧
      (cascadeProfile pathId r).serviceTypes = r.serviceTypes ∧
      (cascadeProfile pathId r).dietaryRestrictions = r.dietaryRestrictions ∧
      (cascadeProfile pathId r).notes = r.notes) ∧
    (∀ (r : RestaurantObj) (xs : List String), r.profiles = JField.array xs →
      (cascadeProfile pathId r).profiles
          = JField.array (xs.filter (fun x => x ≠ pathId)) ∧
      pathId ∉ xs.filter (fun x => x ≠ pathId)) ∧
    (∀ r : RestaurantObj, (∀ xs, r.profiles ≠ JField.array xs) →
      (cascadeProfile pathId r).profiles = r.profiles) := by
  refine ⟨?_, List.eraseIdx_eq_take_drop_succ ps index, ?_, ?_, ?_⟩
  · simp [profilesDelete, hall, hps, hfind]
  · intro r
    cases hr : r.profiles <;> simp [cascadeProfile, hr]
  · intro r xs hr
    refine ⟨by simp [cascadeProfile, hr], ?_⟩
    simp [List.mem_filter]
  · intro r hr
    cases hp : r.profiles with
    | array xs => exact absurd hp (hr xs)
    | absent => simp [cascadeProfile, hp]
    | nonArray => simp [cascadeProfile, hp]

/-- Witness for C2: deleting a concrete profile referenced by two
restaurants removes it from the profiles collection and from both
restaurant tag arrays in the single submitted document. -/
theorem c2_witness :
    profilesDelete true "p1"
        ⟨some [⟨some "all", some "All Restaurants"⟩, ⟨some "p1", some "Lunch"⟩],
          some [⟨some (.str "r1"), some "A", .array ["x"], .array ["takeout"],
                  .array ["p1", "p2"], .absent, "n1"⟩,
                ⟨some (.int 7), some "B", .array ["y"], .array ["delivery"],
                  .array ["p1"], .absent, "n2"⟩]⟩ =
      ⟨200, true, some
        ⟨some (([⟨some "all", some "All Restaurants"⟩,
            (⟨some "p1", some "Lunch"⟩ : ProfileObj)]).eraseIdx 1),
          (some [⟨some (.str "r1"), some "A", .array ["x"], .array ["takeout"],
                  .array ["p1", "p2"], .absent, "n1"⟩,
                (⟨some (.int 7), some "B", .array ["y"], .array ["delivery"],
                  .array ["p1"], .absent, "n2"⟩ : RestaurantObj)]).map
            (fun rs => rs.map (cascadeProfile "p1"))⟩⟩ :=
  (c2_delete_profile_cascades "p1"
    ⟨some [⟨some "all", some "All Restaurants"⟩, ⟨some "p1", some "Lunch"⟩],
      some [⟨some (.str "r1"), some "A", .array ["x"], .array ["takeout"],
              .array ["p1", "p2"], .absent, "n1"⟩,
            ⟨some (.int 7), some "B", .array ["y"], .array ["delivery"],
              .array ["p1"], .absent, "n2"⟩]⟩
    [⟨some "all", some "All Restaurants"⟩, ⟨some "p1", some "Lunch"⟩] 1
    (by decide) rfl (by decide)).1

/-- Counterexample to claim C1: a stored restaurant with legacy integer id 1
and a valid update payload carrying string id "1" — the stringified ids
match at index 0 (as the delete endpoint, which compares `String(...)`
values, confirms by succeeding), yet the update handler returns 404
not-found and attempts no write, because its lookup uses strict `===`. -/
theorem c1_counterexample :
    restaurantsPut true
        ⟨some (.str "1"), some "A", .array ["x"], .array ["takeout"], .absent, .absent, ""⟩
        ⟨none, some [⟨some (.int 1), some "B", .array ["y"], .array ["delivery"],
          .absent, .absent, ""⟩]⟩
      = ⟨404, true, none⟩ ∧
    ([(⟨some (.int 1), some "B", .array ["y"], .array ["delivery"],
        .absent, .absent, ""⟩ : RestaurantObj)].findIdx?
      (fun r => optRidToString r.id = optRidToString (some (.str "1")))) = some 0 ∧
    restaurantsDelete true "1"
        ⟨none, some [⟨some (.int 1), some "B", .array ["y"], .array ["delivery"],
          .absent, .absent, ""⟩]⟩
      = ⟨200, true, some ⟨none, some []⟩⟩ := by
  refine ⟨by decide, by decide, by decide⟩

/-- Claim C1 (amended): the update handler finds the target record by JS
strict equality of `id` (type-sensitive, so a legacy integer id in the
document does NOT match a string id in the payload); if no record matches
it returns a 404 not-found error and writes nothing, otherwise it replaces
the entire record at the matched position, preserving the order (and
length) of the collection. -/
theorem c1_update_matches_by_strict_equality (p : RestaurantObj)
    (doc : Document) (rs : List RestaurantObj)
    (hval : (validateRestaurantData p).valid = true)
    (hid : jsTruthyRId p.id = true)
    (hrs : doc.restaurants = some rs) :
    (rs.findIdx? (fun r => jsStrictEqOptRId r.id p.id) = none →
      restaurantsPut true p doc = ⟨404, true, none⟩) ∧
    (∀ index, rs.findIdx? (fun r => jsStrictEqOptRId r.id p.id) = some index →
      restaurantsPut true p doc
          = ⟨200, true, some { doc with restaurants := some (rs.set index p) }⟩ ∧
      (rs.set index p).length = rs.length ∧
      ∀ j, j ≠ index → (rs.set index p)[j]? = rs[j]?) := by
  constructor
  · intro hfind
    simp [restaurantsPut, hval, hid, hrs, hfind]
  · intro index hfind
    refine ⟨by simp [restaurantsPut, hval, hid, hrs, hfind], List.length_set rs index p, ?_⟩
    intro j hj
    exact List.getElem?_set_ne (fun h => hj h.symm)

/-- Witness for C1 (amended): updating a concrete document whose stored
string id strictly equals the payload id replaces the record in place. -/
theorem c1_witness :
    restaurantsPut true
        ⟨some (.str "r1"), some "A", .array ["x"], .array ["takeout"], .absent, .absent, ""⟩
        ⟨none, some [⟨some (.str "r1"), some "B", .array ["y"], .array ["delivery"],
          .absent, .absent, ""⟩]⟩
      = ⟨200, true, some ⟨none,
          some ([(⟨some (.str "r1"), some "B", .array ["y"], .array ["delivery"],
            .absent, .absent, ""⟩ : RestaurantObj)].set 0
            ⟨some (.str "r1"), some "A", .array ["x"], .array ["takeout"],
              .absent, .absent, ""⟩)⟩⟩ :=
  ((c1_update_matches_by_strict_equality
    ⟨some (.str "r1"), some "A", .array ["x"], .array ["takeout"], .absent, .absent, ""⟩
    ⟨none, some [⟨some (.str "r1"), some "B", .array ["y"], .array ["delivery"],
      .absent, .absent, ""⟩]⟩
    [⟨some (.str "r1"), some "B", .array ["y"], .array ["delivery"],
      .absent, .absent, ""⟩]
    (by decide) (by decide) rfl).2 0 (by decide)).1

/-- Counterexample to claim C3: under a concrete HMAC oracle that accepts
the signature and a payload parser yielding `exp = 0`, at current time 100
the decoded payload has an `exp` field strictly less than the current
epoch seconds, so the claim requires verification to return false — but
the embedded `verify` returns true (the JS guard `payload.exp && ...`
skips a falsy `exp`); `verifyClaimSpec`, which follows the claim word for
word, indeed returns false on the same input. -/
theorem c3_counterexample :
    verify (fun _ _ _ => true) (fun _ => some ⟨some 0⟩) 100
        "AAAA.AAAA.AAAA" "secret" = true ∧
    verifyClaimSpec (fun _ _ _ => true) (fun _ => some ⟨some 0⟩) 100
        "AAAA.AAAA.AAAA" "secret" = false := by
  refine ⟨by decide, by decide⟩

/-- Claim C3 (amended): for every input, verification returns a boolean and
never throws; it returns false when the token does not split into exactly
3 dot-separated segments, when the signature segment fails base64
decoding, when the recomputed HMAC over the first two segments does not
match the decoded third segment, when the payload fails base64 or JSON
parsing, and when the decoded payload has a truthy (nonzero) `exp` field
strictly less than the current epoch seconds; otherwise (including an
absent or zero `exp`) it returns true. -/
theorem c3_verify_characterization (mac : String → String → List Nat → Bool)
    (parse : String → Option JwtPayload) (nowSec : Int) (token secret : String) :
    ((jsSplitDot token).length ≠ 3 →
      verify mac parse nowSec token secret = false) ∧
    (∀ eh ep es, jsSplitDot token = [eh, ep, es] →
      base64UrlDecode es = none →
      verify mac parse nowSec token secret = false) ∧
    (∀ eh ep es sg, jsSplitDot token = [eh, ep, es] →
      base64UrlDecode es = some sg →
      mac secret (eh ++ "." ++ ep) (strBytes sg) = false →
      verify mac parse nowSec token secret = false) ∧
    (∀ eh ep es sg, jsSplitDot token = [eh, ep, es] →
      base64UrlDecode es = some sg →
      mac secret (eh ++ "." ++ ep) (strBytes sg) = true →
      base64UrlDecode ep = none →
      verify mac parse nowSec token secret = false) ∧
    (∀ eh ep es sg pc, jsSplitDot token = [eh, ep, es] →
      base64UrlDecode es = some sg →
      mac secret (eh ++ "." ++ ep) (strBytes sg) = true →
      base64UrlDecode ep = some pc → parse pc = none →
      verify mac parse nowSec token secret = false) ∧
    (∀ eh ep es sg pc pl e, jsSplitDot token = [eh, ep, es] →
      base64UrlDecode es = some sg →
      mac secret (eh ++ "." ++ ep) (strBytes sg) = true →
      base64UrlDecode ep = some pc → parse pc = some pl →
      pl.exp = some e → e ≠ 0 → e < nowSec →
      verify mac parse nowSec token secret = false) ∧
    (∀ eh ep es sg pc pl, jsSplitDot token = [eh, ep, es] →
      base64UrlDecode es = some sg →
      mac secret (eh ++ "." ++ ep) (strBytes sg) = true →
      base64UrlDecode ep = some pc → parse pc = some pl →
      (pl.exp = none ∨ pl.exp = some 0 ∨
        (∃ e, pl.exp = some e ∧ ¬ e < nowSec)) →
      verify mac parse nowSec token secret = true) := by
  refine ⟨?_, ?_, ?_, ?_, ?_, ?_, ?_⟩
  · intro hlen
    unfold verify
    cases hsp : jsSplitDot token with
    | nil => rfl
    | cons a t =>
        cases t with
        | nil => rfl
        | cons b t =>
            cases t with
            | nil => rfl
            | cons c t =>
                cases t with
                | nil => exact absurd (by rw [hsp]; rfl) hlen
                | cons d t => rfl
  · intro eh ep es hsp hsig
    simp [verify, hsp, hsig]
  · intro eh ep es sg hsp hsig hmac
    simp [verify, hsp, hsig, hmac]
  · intro eh ep es sg hsp hsig hmac hpay
    simp [verify, hsp, hsig, hmac, hpay]
  · intro eh ep es sg pc hsp hsig hmac hpay hparse
    simp [verify, hsp, hsig, hmac, hpay, hparse]
  · intro eh ep es sg pc pl e hsp hsig hmac hpay hparse hexp hne hlt
    simp [verify, hsp, hsig, hmac, hpay, hparse, hexp, hne, hlt]
  · intro eh ep es sg pc pl hsp hsig hmac hpay hparse hexp
    rcases hexp with h0 | h0 | ⟨e, he, hlt⟩
    · simp [verify, hsp, hsig, hmac, hpay, hparse, h0]
    · simp [verify, hsp, hsig, hmac, hpay, hparse, h0]
    · simp [verify, hsp, hsig, hmac, hpay, hparse, he, hlt]

/-- Witness for C3 (amended): a malformed one-segment token is rejected,
and a well-formed concrete token with a future `exp` is accepted. -/
theorem c3_witness :
    verify (fun _ _ _ => true) (fun _ => some ⟨some 200⟩) 100
        "notatoken" "secret" = false ∧
    verify (fun _ _ _ => true) (fun _ => some ⟨some 200⟩) 100
        "AAAA.AAAA.AAAA" "secret" = true :=
  ⟨(c3_verify_characterization (fun _ _ _ => true) (fun _ => some ⟨some 200⟩) 100
      "notatoken" "secret").1 (by decide),
    (c3_verify_characterization (fun _ _ _ => true) (fun _ => some ⟨some 200⟩) 100
      "AAAA.AAAA.AAAA" "secret").2.2.2.2.2.2 "AAAA" "AAAA" "AAAA"
      "\x00\x00\x00" "\x00\x00\x00" ⟨some 200⟩ (by decide) (by decide) rfl
      (by decide) rfl (Or.inr (Or.inr ⟨200, rfl, by decide⟩))⟩

end RestaurantWheel
